import Mathlib

/-!
Shallow embedding of the YourOwnShop PDF-screening chatbot
(src/PDF.py, src/Streamlit.py, src/App.py) and proofs about it.

External library calls (PyPDFLoader, RecursiveCharacterTextSplitter,
AzureOpenAIEmbeddings, FAISS similarity search, the hosted chat model and
hashlib.sha256) are modelled as function parameters: the code under
verification is the glue that composes them, so every theorem is stated for
an arbitrary choice of those functions unless the claim pins them down.
A FAISS index is modelled by the list of documents that have been stored
in it, which is exactly the information the glue code puts in and takes out.
-/

namespace PdfScreening

/-- A langchain Document: page text plus the optional "source" entry of its
metadata dict (the only metadata key the code reads). -/
structure Doc where
  page_content : String
  metadata_source : Option String
deriving Repr, DecidableEq

/-- The FAISS vector store, modelled as the list of documents stored in it:
`FAISS.from_documents` creates a store holding the batch, `add_documents`
appends a batch. -/
abbrev VectorDB := List Doc

/-- A chat message as the Python dict literals build it: a "role" string, a
"content" string, and a "sources" list that is present only on the messages
that were appended with one. -/
structure Message where
  role : String
  content : String
  sources : Option (List String)
deriving Repr, DecidableEq

/-- The Streamlit session state fields the code initialises and uses
(Streamlit.py lines 71-84; App.py lines 39-46 uses the first four).
`processing_time` is wall-clock time and is not modelled. -/
structure SessionState where
  vector_db : Option VectorDB
  chunks : Option (List Doc)
  messages : List Message
  expected_text : String
  uploaded_pdf_hash : Option String
  summary : Option String
deriving Repr, DecidableEq

/-- The initial session state (all keys absent, so every `if ... not in
st.session_state` branch fires). -/
def initState : SessionState :=
  { vector_db := none
  , chunks := none
  , messages := []
  , expected_text := ""
  , uploaded_pdf_hash := none
  , summary := none }

/-- Observable UI and library effects of one handler run, in order. -/
inductive Effect where
  | info (msg : String)
  | error (msg : String)
  | success (msg : String)
  | ingest
  | summarize
  | retrieve (query : String)
  | llmCall (context question : String)
  | rerun
deriving Repr, DecidableEq

/-! ## Constants of PDF.py (lines 18-22, 31). -/

def REQUEST_TIMEOUT_DEFAULT : Nat := 1000
def TEMPERATURE_NUM_DEFAULT : Nat := 4  -- 0.4, scaled by 10; never branched on
def CHUNK_SIZE_DEFAULT : Nat := 800
def CHUNK_OVERLAP_DEFAULT : Nat := 20
def BATCH_SIZE : Nat := 40

def PDF_PATH : String :=
  "pdf_path\\23.1-Senior-Facilities-Agreement-Ares-Management-Limited-dated-27-November-2023.pdf"

/-! ## PDF.py: ingestion pipeline.

`loader` stands for `PyPDFLoader(path).load()`; it is applied to the PDF the
path refers to. `splitter cs co docs` stands for
`RecursiveCharacterTextSplitter(chunk_size=cs, chunk_overlap=co).split_documents(docs)`.
-/

/-- PDF.py lines 55-59: `load_pdf`. -/
def load_pdf (loader : String → List Doc) (pdf_path : String) : List Doc :=
  loader pdf_path

/-- PDF.py lines 61-65: `split_text`. The Python signature has
`chunk_size=CHUNK_SIZE_DEFAULT, chunk_overlap=CHUNK_OVERLAP_DEFAULT` as
default arguments; the Lean version takes them explicitly and every call
site passes the defaults, as the Python call sites do. -/
def split_text (splitter : Nat → Nat → List Doc → List Doc)
    (pdf_content : List Doc) (chunk_size chunk_overlap : Nat) : List Doc :=
  splitter chunk_size chunk_overlap pdf_content

/-- The batching loop of `generate_embeddings` (PDF.py lines 72-83): one
recursive step per iteration of `for i in range(0, len(chunks), batch_size)`,
where the list argument holds the chunks not yet processed, i.e.
`chunks[i:]`.  The Python `first` flag is `True` exactly when `vector_db` is
still `None`, so the two are merged into the `Option`.  `fuel` is an upper
bound on the number of remaining chunks; it makes the recursion structural
and never runs out when `batch_size` is positive (it is 40 at the sole call
site), since each iteration consumes at least one chunk.  The 20-second
`time.sleep` has no observable effect on the data and is not modelled. -/
def embedBatches (batch_size : Nat) :
    Nat → Option VectorDB → List Doc → Option VectorDB
  | _, vector_db, [] => vector_db
  | 0, vector_db, _ :: _ => vector_db
  | fuel + 1, vector_db, c :: rest =>
      let batch_chunks := (c :: rest).take batch_size
      let db : VectorDB :=
        match vector_db with
        | none => batch_chunks          -- FAISS.from_documents(batch_chunks, ...)
        | some v => v ++ batch_chunks   -- vector_db.add_documents(batch_chunks)
      embedBatches batch_size fuel (some db) ((c :: rest).drop batch_size)

/-- PDF.py lines 67-85: `generate_embeddings`. Starts from `vector_db = None`
and runs the batching loop over all chunks. Returns `none` exactly when the
loop body never runs, i.e. when there are no chunks. -/
def generate_embeddings (chunks : List Doc) (batch_size : Nat) :
    Option VectorDB :=
  embedBatches batch_size chunks.length none chunks

/-- PDF.py lines 44-53: `pdf_ingestion`. With a (truthy) uploaded file the
content comes from loading that file, otherwise from the hard-coded
`PDF_PATH`; the content is split with the default window and the chunks are
embedded with the default batch size. -/
def pdf_ingestion (loader : String → List Doc)
    (splitter : Nat → Nat → List Doc → List Doc)
    (pdf_file : Option String) : Option VectorDB × List Doc :=
  let pdf_content :=
    match pdf_file with
    | some f => loader f
    | none => load_pdf loader PDF_PATH
  let chunks := split_text splitter pdf_content CHUNK_SIZE_DEFAULT CHUNK_OVERLAP_DEFAULT
  let vector_db := generate_embeddings chunks BATCH_SIZE
  (vector_db, chunks)

/-! ## Lemmas about the embedding loop. -/

theorem embedBatches_nil (batch_size fuel : Nat) (db : Option VectorDB) :
    embedBatches batch_size fuel db [] = db := by
  cases fuel <;> rfl

theorem embedBatches_some (batch_size : Nat) (hbs : 0 < batch_size) :
    ∀ (fuel : Nat) (chunks : List Doc) (acc : VectorDB),
      chunks.length ≤ fuel →
      embedBatches batch_size fuel (some acc) chunks = some (acc ++ chunks) := by
  intro fuel
  induction fuel with
  | zero =>
      intro chunks acc h
      have : chunks = [] := List.eq_nil_of_length_eq_zero (Nat.le_zero.mp h)
      subst this
      simp [embedBatches]
  | succ n ih =>
      intro chunks acc h
      cases chunks with
      | nil => simp [embedBatches]
      | cons c rest =>
          have hlen : ((c :: rest).drop batch_size).length ≤ n := by
            have h1 : (c :: rest).length ≤ n + 1 := h
            have h2 : ((c :: rest).drop batch_size).length
                = (c :: rest).length - batch_size := List.length_drop _ _
            omega
          calc embedBatches batch_size (n + 1) (some acc) (c :: rest)
              = embedBatches batch_size n
                  (some (acc ++ (c :: rest).take batch_size))
                  ((c :: rest).drop batch_size) := by
                simp [embedBatches]
            _ = some (acc ++ (c :: rest).take batch_size
                  ++ (c :: rest).drop batch_size) := by
                exact ih _ _ hlen
            _ = some (acc ++ (c :: rest)) := by
                rw [List.append_assoc, List.take_append_drop]

theorem generate_embeddings_eq (chunks : List Doc) (batch_size : Nat)
    (hbs : 0 < batch_size) :
    generate_embeddings chunks batch_size
      = if chunks.isEmpty then none else some chunks := by
  cases chunks with
  | nil => rfl
  | cons c rest =>
      have hlen : ((c :: rest).drop batch_size).length ≤ rest.length := by
        have : ((c :: rest).drop batch_size).length
            = (c :: rest).length - batch_size := List.length_drop _ _
        simp only [List.length_cons] at this
        omega
      calc generate_embeddings (c :: rest) batch_size
          = embedBatches batch_size rest.length
              (some ((c :: rest).take batch_size))
              ((c :: rest).drop batch_size) := by
            simp [generate_embeddings, embedBatches]
        _ = some ((c :: rest).take batch_size ++ (c :: rest).drop batch_size) :=
            embedBatches_some batch_size hbs _ _ _ hlen
        _ = some (c :: rest) := by rw [List.take_append_drop]
        _ = if (c :: rest).isEmpty then none else some (c :: rest) := by simp

/-! ## Python string primitives used by the handlers. -/

/-- Python `s.split()` with no argument: split on every whitespace character
and drop the empty pieces, so runs of whitespace and leading or trailing
whitespace produce no empty words. Modelled on the character list of the
string. -/
def pysplit (s : String) : List String :=
  ((s.toList.splitOnP fun c => c.isWhitespace).map
    fun l => String.mk l).filter fun w => w ≠ ""

/-- Python `round` rounds half-way cases to the nearest even integer. -/
def roundHalfEven (q : ℚ) : ℤ :=
  if q - ⌊q⌋ < 1 / 2 then ⌊q⌋
  else if 1 / 2 < q - ⌊q⌋ then ⌊q⌋ + 1
  else if ⌊q⌋ % 2 = 0 then ⌊q⌋ else ⌊q⌋ + 1

/-- Python `round(x, 2)`: round to the nearest multiple of 1/100, ties to
even. The Python value is a float; it is modelled as the exact rational. -/
def pyround2 (q : ℚ) : ℚ :=
  (roundHalfEven (q * 100) : ℚ) / 100

/-- Streamlit.py lines 193-200 and App.py lines 138-145: `compute_accuracy`.
Python builds `set(answer.split())` and `set(expected_text.split())`; sets
are modelled by deduplicated lists, whose lengths are the set cardinalities,
and the intersection by filtering. Returns the integer 0 when the expected
set is empty, else the rounded percentage, both as exact rationals. -/
def compute_accuracy (answer expected_text : String) : ℚ :=
  let answer_words := (pysplit answer).dedup
  let expected_words := (pysplit expected_text).dedup
  let common_words := answer_words.filter fun w => w ∈ expected_words
  if expected_words.isEmpty then 0
  else pyround2 ((common_words.length : ℚ) / (expected_words.length : ℚ) * 100)

/-- The source snippet of Streamlit.py line 190 / App.py line 134:
`doc.page_content[:100].strip().replace(newline, space)`, modelled on the
character list (`strip` removes leading and trailing whitespace; the
replaced pattern is the single newline character, so `replace` is a
character map). -/
def snippet (s : String) : String :=
  String.mk
    ((((s.toList.take 100).dropWhile fun c => c.isWhitespace).reverse.dropWhile
        fun c => c.isWhitespace).reverse.map
      fun c => if c = '\n' then ' ' else c)

/-- Streamlit.py lines 187-191 / App.py lines 131-135: one line of the
`sources` list for a retrieved document. -/
def sourceLine (doc : Doc) : String :=
  doc.metadata_source.getD "Unknown Source" ++ ": " ++ snippet doc.page_content ++ "..."

/-- Streamlit.py lines 201-203 / App.py lines 147-149: the displayed bot
answer; when the expected text is truthy (non-empty) the accuracy footer is
appended to the model reply. Decimal formatting of the accuracy number is
abstracted by `toString` of the exact rational. -/
def botAnswer (answer expected_text : String) : String :=
  if expected_text = "" then answer
  else
    answer ++ "\n\nAccuracy compared to expected response: "
      ++ toString (compute_accuracy answer expected_text) ++ "%"

/-! ## UI handlers.

Each handler maps the session state (plus the results of library calls,
passed as parameters) to the new session state and the list of observable
effects, in program order. -/

/-- Streamlit.py lines 173-206 (and, with the same observable behaviour,
App.py lines 116-157): the body of the Ask-Question button. An empty query
is falsy, so it only shows an info message; with no vector index an error is
shown; otherwise the user message is appended, documents are retrieved,
their page contents are joined by newlines into the context, the model is
called, sources are collected, the accuracy footer is appended when expected
text is present, the bot message is appended and the app reruns.
`retrieve db q` stands for
`db.as_retriever(search_type=similarity_score_threshold, ...).invoke(q)` and
`llm context question` for `generate_response(context, question)`. -/
def askQuestionClick (retrieve : VectorDB → String → List Doc)
    (llm : String → String → String)
    (st : SessionState) (user_query : String) : SessionState × List Effect :=
  if user_query = "" then
    (st, [Effect.info "Please enter a query to proceed."])
  else
    match st.vector_db with
    | none => (st, [Effect.error "Please upload and process a PDF first."])
    | some vdb =>
        let retrieved_docs := retrieve vdb user_query
        let context := String.intercalate "\n" (retrieved_docs.map Doc.page_content)
        let answer := llm context user_query
        let sources := retrieved_docs.map sourceLine
        ({ st with
            messages := st.messages
              ++ [{ role := "User", content := user_query, sources := none },
                  { role := "Bot"
                  , content := botAnswer answer st.expected_text
                  , sources := some sources }] },
         [Effect.retrieve user_query, Effect.llmCall context user_query,
          Effect.rerun])

/-- App.py lines 61-63: the Clear-Chat-History button body. -/
def clearChatHistory (st : SessionState) : SessionState × List Effect :=
  ({ st with messages := [] }, [Effect.success "Chat history cleared!"])

/-- Streamlit.py lines 129-140 (identical in App.py lines 65-77): the
expected-responses upload handler. Its whole body sits in a try/except, so a
parsing failure becomes a UI error message and the state is untouched. The
parameter is the outcome of `PdfReader(expected_pdf)` plus per-page
`extract_text()`: on success the list of page texts, from which the handler
builds `expected_text` by appending a newline to each page. -/
def expectedPdfHandler (parse_result : Except String (List String))
    (st : SessionState) : SessionState × List Effect :=
  match parse_result with
  | Except.ok pages =>
      let expected_text := String.join (pages.map fun p => p ++ "\n")
      ({ st with expected_text := expected_text },
       [Effect.success "Expected responses loaded."])
  | Except.error e =>
      (st, [Effect.error ("Error processing expected PDF: " ++ e)])

/-- Streamlit.py lines 110-126: the body of the Process-PDF button. Unlike
the expected-responses handler there is no try/except here, so when
`pdf_ingestion` raises (e.g. PDF parsing fails inside `PyPDFLoader.load`)
the exception propagates out of the handler: the result is
`Except.error`, not a state with a UI error effect. The parameter is the
outcome of `pdf_ingestion(tmp_path)`; `summarizer` stands for
`generate_summary`. -/
def processPdfClick (summarizer : List Doc → String)
    (ingestion_result : Except String (Option VectorDB × List Doc))
    (pdf_hash : String) (st : SessionState) :
    Except String (SessionState × List Effect) := do
  let (vector_db, chunks) ← ingestion_result
  pure
    ({ st with
        vector_db := vector_db
      , chunks := some chunks
      , uploaded_pdf_hash := some pdf_hash
      , summary := some (summarizer chunks) },
     [Effect.ingest, Effect.summarize,
      Effect.success "PDF processed, indexed, and summarized!"])

/-- Streamlit.py lines 99-126: the whole sidebar PDF-upload handler, for the
case where ingestion succeeds (the pure counterpart of `processPdfClick`).
`sha256` stands for `hashlib.sha256(file_bytes).hexdigest()`. The uploaded
bytes are written to a temporary file and ingested from its path, so
`loader` is applied directly to the file bytes. When the stored hash equals
the hash of the uploaded file and a vector index exists, the existing index
is reused and no process button is even rendered, so `process_clicked` is
irrelevant in that branch; otherwise the button click runs the full
ingestion, stores the results and the hash, and generates a summary. -/
def pdfUploadHandler (sha256 : String → String)
    (loader : String → List Doc) (splitter : Nat → Nat → List Doc → List Doc)
    (summarizer : List Doc → String)
    (st : SessionState) (file_bytes : String) (process_clicked : Bool) :
    SessionState × List Effect :=
  let pdf_hash := sha256 file_bytes
  if st.uploaded_pdf_hash = some pdf_hash ∧ st.vector_db ≠ none then
    (st, [Effect.info "Same file detected. Reusing existing index."])
  else if process_clicked then
    let (vector_db, chunks) := pdf_ingestion loader splitter (some file_bytes)
    ({ st with
        vector_db := vector_db
      , chunks := some chunks
      , uploaded_pdf_hash := some pdf_hash
      , summary := some (summarizer chunks) },
     [Effect.ingest, Effect.summarize,
      Effect.success "PDF processed, indexed, and summarized!"])
  else (st, [])

/-- The session states the app can reach: the initial state followed by any
sequence of handler runs, for any behaviour of the external libraries. -/
inductive Reachable : SessionState → Prop
  | init : Reachable initState
  | clear {st} : Reachable st → Reachable (clearChatHistory st).1
  | ask {st} (retrieve : VectorDB → String → List Doc)
      (llm : String → String → String) (q : String) :
      Reachable st → Reachable (askQuestionClick retrieve llm st q).1
  | upload {st} (sha256 : String → String) (loader : String → List Doc)
      (splitter : Nat → Nat → List Doc → List Doc)
      (summarizer : List Doc → String) (file_bytes : String) (clicked : Bool) :
      Reachable st →
      Reachable (pdfUploadHandler sha256 loader splitter summarizer st file_bytes clicked).1
  | expected {st} (parse_result : Except String (List String)) :
      Reachable st → Reachable (expectedPdfHandler parse_result st).1

/-! ## Concrete library behaviours used to exercise the handlers. -/

def cDoc : Doc := { page_content := "x", metadata_source := some "s" }

def cSha256 : String → String := fun _ => "h"

def cLoader : String → List Doc := fun _ => [cDoc]

def cSplitter : Nat → Nat → List Doc → List Doc := fun _ _ docs => docs

def cSplitterNil : Nat → Nat → List Doc → List Doc := fun _ _ _ => []

def cSummarizer : List Doc → String := fun _ => "summary"

def cRetrieve : VectorDB → String → List Doc := fun db _ => db

def cLlm : String → String → String := fun _ _ => "reply"

/-- A state in which the stored hash matches `cSha256` of any file and an
index is present: the dedup branch of the upload handler fires. -/
def cDupState : SessionState :=
  { initState with
      uploaded_pdf_hash := some "h"
    , vector_db := some [cDoc]
    , chunks := some [cDoc] }

/-- A state with an index present, ready for a question. -/
def cAskState : SessionState :=
  { initState with vector_db := some [cDoc], chunks := some [cDoc] }

/-! ## Helper lemmas: rounding. -/

theorem floor_le_roundHalfEven (q : ℚ) : ⌊q⌋ ≤ roundHalfEven q := by
  unfold roundHalfEven
  split
  · exact le_refl _
  · split
    · omega
    · split <;> omega

theorem roundHalfEven_le (q : ℚ) (n : ℤ) (h : q ≤ (n : ℚ)) :
    roundHalfEven q ≤ n := by
  have hfn : ⌊q⌋ ≤ n := by
    have h1 := Int.floor_le_floor h
    simpa using h1
  unfold roundHalfEven
  split
  · exact hfn
  · rename_i h1
    have h2 : (1 : ℚ) / 2 ≤ q - ⌊q⌋ := not_lt.mp h1
    have h3 : (⌊q⌋ : ℚ) < (n : ℚ) := by
      have h4 := Int.floor_le q
      linarith
    have h5 : ⌊q⌋ < n := by exact_mod_cast h3
    split
    · omega
    · split
      · exact hfn
      · omega

theorem pyround2_nonneg (q : ℚ) (h : 0 ≤ q) : 0 ≤ pyround2 q := by
  unfold pyround2
  have h1 : (0 : ℤ) ≤ roundHalfEven (q * 100) := by
    have hf : (0 : ℤ) ≤ ⌊q * 100⌋ := Int.floor_nonneg.mpr (by positivity)
    have h2 := floor_le_roundHalfEven (q * 100)
    omega
  have h3 : (0 : ℚ) ≤ (roundHalfEven (q * 100) : ℚ) := by exact_mod_cast h1
  have h100 : (0 : ℚ) < 100 := by norm_num
  exact div_nonneg h3 (le_of_lt h100)

theorem pyround2_le_100 (q : ℚ) (h : q ≤ 100) : pyround2 q ≤ 100 := by
  unfold pyround2
  have h1 : roundHalfEven (q * 100) ≤ (10000 : ℤ) := by
    apply roundHalfEven_le
    push_cast
    linarith
  have h2 : (roundHalfEven (q * 100) : ℚ) ≤ 10000 := by exact_mod_cast h1
  linarith

/-! ## Helper lemmas: accuracy. -/

theorem common_words_le_expected_words (answer expected_text : String) :
    ((pysplit answer).dedup.filter
        fun w => w ∈ (pysplit expected_text).dedup).length
      ≤ (pysplit expected_text).dedup.length := by
  apply List.Subperm.length_le
  apply List.Nodup.subperm
  · exact (List.nodup_dedup _).filter _
  · intro w hw
    have h1 := List.mem_filter.mp hw
    exact of_decide_eq_true h1.2

theorem compute_accuracy_nonneg (answer expected_text : String) :
    0 ≤ compute_accuracy answer expected_text := by
  simp only [compute_accuracy]
  split
  · exact le_refl 0
  · apply pyround2_nonneg
    positivity

theorem compute_accuracy_le_100 (answer expected_text : String) :
    compute_accuracy answer expected_text ≤ 100 := by
  simp only [compute_accuracy]
  split
  · norm_num
  · rename_i hne
    apply pyround2_le_100
    have hnil : (pysplit expected_text).dedup ≠ [] := by
      intro h0
      exact hne (by rw [h0]; rfl)
    have hpos : 0 < ((pysplit expected_text).dedup.length : ℚ) := by
      have h1 : 0 < (pysplit expected_text).dedup.length :=
        List.length_pos.mpr hnil
      exact_mod_cast h1
    have hle :
        (((pysplit answer).dedup.filter
            fun w => w ∈ (pysplit expected_text).dedup).length : ℚ)
          ≤ ((pysplit expected_text).dedup.length : ℚ) := by
      exact_mod_cast common_words_le_expected_words answer expected_text
    have hfrac :
        (((pysplit answer).dedup.filter
            fun w => w ∈ (pysplit expected_text).dedup).length : ℚ)
            / ((pysplit expected_text).dedup.length : ℚ) ≤ 1 :=
      (div_le_one hpos).mpr hle
    nlinarith

/-- The per-message invariant of the chat history: the role is the literal
User or Bot string, and a sources list is present only on Bot messages. -/
def MessageOK (m : Message) : Prop :=
  (m.role = "User" ∨ m.role = "Bot") ∧ (m.sources ≠ none → m.role = "Bot")

/-! ## Helper lemmas: handlers. -/

theorem askQuestionClick_no_index
    (retrieve : VectorDB → String → List Doc) (llm : String → String → String)
    (st : SessionState) (q : String) (hq : q ≠ "") (hdb : st.vector_db = none) :
    askQuestionClick retrieve llm st q
      = (st, [Effect.error "Please upload and process a PDF first."]) := by
  unfold askQuestionClick
  rw [if_neg hq, hdb]

theorem askQuestionClick_messages
    (retrieve : VectorDB → String → List Doc) (llm : String → String → String)
    (st : SessionState) (q : String) :
    (askQuestionClick retrieve llm st q).1.messages = st.messages ∨
    ∃ answer sources,
      (askQuestionClick retrieve llm st q).1.messages
        = st.messages
          ++ [{ role := "User", content := q, sources := none },
              { role := "Bot", content := answer, sources := some sources }] := by
  unfold askQuestionClick
  by_cases hq : q = ""
  · rw [if_pos hq]; left; rfl
  · rw [if_neg hq]
    cases hdb : st.vector_db with
    | none => left; rfl
    | some vdb => right; exact ⟨_, _, rfl⟩

theorem pdfUploadHandler_messages (sha256 : String → String)
    (loader : String → List Doc) (splitter : Nat → Nat → List Doc → List Doc)
    (summarizer : List Doc → String)
    (st : SessionState) (fb : String) (clicked : Bool) :
    (pdfUploadHandler sha256 loader splitter summarizer st fb clicked).1.messages
      = st.messages := by
  simp only [pdfUploadHandler]
  repeat' split
  all_goals rfl

theorem expectedPdfHandler_messages (parse_result : Except String (List String))
    (st : SessionState) :
    (expectedPdfHandler parse_result st).1.messages = st.messages := by
  cases parse_result <;> rfl

/-! ## Claim theorems. -/

/-- C3: generate_embeddings processes the chunks in successive fixed-size
batches with no retry logic, submitting every chunk produced by splitting to
the vector index exactly once, so the index it returns holds exactly the
chunk list (in order, without duplication); in particular this holds at the
default batch size 40 used by pdf_ingestion, whose returned index likewise
holds exactly the chunks produced by splitting. -/
theorem generate_embeddings_exactly_once (chunks : List Doc) (batch_size : Nat)
    (hbs : 0 < batch_size)
    (loader : String → List Doc) (splitter : Nat → Nat → List Doc → List Doc)
    (pdf_file : Option String) :
    generate_embeddings chunks batch_size
        = (if chunks.isEmpty then none else some chunks) ∧
    (pdf_ingestion loader splitter pdf_file).1
        = (if (pdf_ingestion loader splitter pdf_file).2.isEmpty then none
           else some (pdf_ingestion loader splitter pdf_file).2) := by
  constructor
  · exact generate_embeddings_eq chunks batch_size hbs
  · exact generate_embeddings_eq _ BATCH_SIZE (by norm_num [BATCH_SIZE])

/-- Witness for C3 at a concrete one-chunk list and the default batch size. -/
theorem generate_embeddings_exactly_once_witness :
    0 < BATCH_SIZE ∧ generate_embeddings [cDoc] BATCH_SIZE = some [cDoc] := by
  refine ⟨by decide, ?_⟩
  have h := (generate_embeddings_exactly_once [cDoc] BATCH_SIZE (by decide)
    cLoader cSplitter (some "p")).1
  simpa using h

/-- C5: compute_accuracy returns 0 when the expected text splits into no
words; otherwise it returns the number of distinct common words divided by
the number of distinct expected words (which is then positive, so the
division is never by zero), times 100, rounded to two decimal places; the
result always lies between 0 and 100. -/
theorem compute_accuracy_spec (answer expected_text : String) :
    (pysplit expected_text = [] → compute_accuracy answer expected_text = 0) ∧
    (pysplit expected_text ≠ [] →
      0 < (pysplit expected_text).dedup.length ∧
      compute_accuracy answer expected_text
        = pyround2
            ((((pysplit answer).dedup.filter
                fun w => w ∈ (pysplit expected_text).dedup).length : ℚ)
              / ((pysplit expected_text).dedup.length : ℚ) * 100)) ∧
    0 ≤ compute_accuracy answer expected_text ∧
    compute_accuracy answer expected_text ≤ 100 := by
  refine ⟨?_, ?_, compute_accuracy_nonneg answer expected_text,
    compute_accuracy_le_100 answer expected_text⟩
  · intro h
    simp only [compute_accuracy]
    rw [if_pos]
    rw [(List.dedup_eq_nil _).mpr h]
    rfl
  · intro h
    have hnil : (pysplit expected_text).dedup ≠ [] :=
      fun h0 => h ((List.dedup_eq_nil _).mp h0)
    refine ⟨List.length_pos.mpr hnil, ?_⟩
    simp only [compute_accuracy]
    rw [if_neg]
    intro h1
    exact hnil (List.isEmpty_iff.mp h1)

/-- Witness for C5: an empty expected text gives 0; two of four distinct
expected words in common gives 50. -/
theorem compute_accuracy_spec_witness :
    compute_accuracy "hello" "" = 0 ∧ compute_accuracy "a b" "a b c d" = 50 := by
  constructor
  · exact (compute_accuracy_spec "hello" "").1 (by decide)
  · have h := ((compute_accuracy_spec "a b" "a b c d").2.1 (by decide)).2
    have h1 : ((pysplit "a b").dedup.filter
        fun w => w ∈ (pysplit "a b c d").dedup).length = 2 := by decide
    have h2 : (pysplit "a b c d").dedup.length = 4 := by decide
    rw [h, h1, h2]
    have h3 : (((2 : ℕ) : ℚ) / ((4 : ℕ) : ℚ) * 100) = 50 := by norm_num
    rw [h3]
    have h4 : ((50 : ℚ) * 100) = 5000 := by norm_num
    simp only [pyround2, roundHalfEven, h4]
    norm_num

/-- C7: text splitting always uses the fixed window: split_text invokes the
splitter with the constant chunk size 800 and constant overlap 20, and the
chunks pdf_ingestion produces are the splitter applied with those constants
to the loaded document, whatever its content. -/
theorem split_text_fixed_window
    (splitter : Nat → Nat → List Doc → List Doc) (content : List Doc)
    (loader : String → List Doc) (pdf : String) :
    split_text splitter content CHUNK_SIZE_DEFAULT CHUNK_OVERLAP_DEFAULT
        = splitter 800 20 content ∧
    (pdf_ingestion loader splitter (some pdf)).2 = splitter 800 20 (loader pdf) ∧
    CHUNK_SIZE_DEFAULT = 800 ∧ CHUNK_OVERLAP_DEFAULT = 20 :=
  ⟨rfl, rfl, rfl, rfl⟩

/-- C8: the Clear-Chat-History handler empties the message list, shows a
success message, and leaves every other session-state field (vector index,
chunks, expected text, stored hash, summary) unchanged. -/
theorem clear_chat_history_frame (st : SessionState) :
    (clearChatHistory st).1.messages = [] ∧
    (clearChatHistory st).1.vector_db = st.vector_db ∧
    (clearChatHistory st).1.chunks = st.chunks ∧
    (clearChatHistory st).1.expected_text = st.expected_text ∧
    (clearChatHistory st).1.uploaded_pdf_hash = st.uploaded_pdf_hash ∧
    (clearChatHistory st).1.summary = st.summary ∧
    (clearChatHistory st).2 = [Effect.success "Chat history cleared!"] :=
  ⟨rfl, rfl, rfl, rfl, rfl, rfl, rfl⟩

/-- C9: pressing Ask Question with a non-empty query while no vector index
exists shows exactly one error message, performs no retrieval and no model
call, and leaves the whole session state unchanged. -/
theorem ask_question_without_index
    (retrieve : VectorDB → String → List Doc) (llm : String → String → String)
    (st : SessionState) (q : String) (hq : q ≠ "") (hdb : st.vector_db = none) :
    askQuestionClick retrieve llm st q
        = (st, [Effect.error "Please upload and process a PDF first."]) ∧
    (askQuestionClick retrieve llm st q).1 = st ∧
    (∀ q2, Effect.retrieve q2 ∉ (askQuestionClick retrieve llm st q).2) ∧
    (∀ c q2, Effect.llmCall c q2 ∉ (askQuestionClick retrieve llm st q).2) := by
  have h := askQuestionClick_no_index retrieve llm st q hq hdb
  refine ⟨h, by rw [h], ?_, ?_⟩
  · intro q2 hmem
    rw [h] at hmem
    simp at hmem
  · intro c q2 hmem
    rw [h] at hmem
    simp at hmem

/-- Witness for C9 in the initial state with a concrete query. -/
theorem ask_question_without_index_witness :
    ("q" : String) ≠ "" ∧ initState.vector_db = none ∧
    askQuestionClick cRetrieve cLlm initState "q"
      = (initState, [Effect.error "Please upload and process a PDF first."]) :=
  ⟨by decide, rfl,
   (ask_question_without_index cRetrieve cLlm initState "q" (by decide) rfl).1⟩

/-- C1 counterexample: re-uploading a file whose SHA-256 hash equals the
stored hash while an index exists does not run ingestion again, even with the
process button pressed: the handler reuses the stored index (the state and
the index are unchanged) and produces no ingest effect, refuting the claim
that every uploaded PDF is fully re-ingested without reuse. -/
theorem pdf_dedup_counterexample :
    pdfUploadHandler cSha256 cLoader cSplitter cSummarizer cDupState "pdfbytes" true
        = (cDupState, [Effect.info "Same file detected. Reusing existing index."]) ∧
    Effect.ingest ∉
      (pdfUploadHandler cSha256 cLoader cSplitter cSummarizer cDupState "pdfbytes" true).2 ∧
    (pdfUploadHandler cSha256 cLoader cSplitter cSummarizer cDupState "pdfbytes" true).1.vector_db
        = some [cDoc] := by
  refine ⟨?_, ?_, ?_⟩ <;> decide

/-- C1 amended: the Streamlit upload handler deduplicates by SHA-256 file
hash: when the uploaded bytes hash to the stored hash and a vector index
exists, the existing index is reused and ingestion is not run; in every
other situation pressing the process button runs the full ingestion (load,
split, embed, index) and stores the new index, chunks, hash and summary. -/
theorem pdf_dedup_spec (sha256 : String → String)
    (loader : String → List Doc) (splitter : Nat → Nat → List Doc → List Doc)
    (summarizer : List Doc → String)
    (st : SessionState) (file_bytes : String) (clicked : Bool) :
    (st.uploaded_pdf_hash = some (sha256 file_bytes) ∧ st.vector_db ≠ none →
      pdfUploadHandler sha256 loader splitter summarizer st file_bytes clicked
        = (st, [Effect.info "Same file detected. Reusing existing index."])) ∧
    (¬ (st.uploaded_pdf_hash = some (sha256 file_bytes) ∧ st.vector_db ≠ none) →
      pdfUploadHandler sha256 loader splitter summarizer st file_bytes true
        = ({ st with
              vector_db := (pdf_ingestion loader splitter (some file_bytes)).1
            , chunks := some (pdf_ingestion loader splitter (some file_bytes)).2
            , uploaded_pdf_hash := some (sha256 file_bytes)
            , summary :=
                some (summarizer (pdf_ingestion loader splitter (some file_bytes)).2) },
           [Effect.ingest, Effect.summarize,
            Effect.success "PDF processed, indexed, and summarized!"])) := by
  constructor
  · intro h
    simp only [pdfUploadHandler]
    rw [if_pos h]
  · intro h
    simp only [pdfUploadHandler]
    rw [if_neg h]
    rfl

/-- Witness for C1 (amended), both branches at concrete inputs: the dedup
branch reuses the index with the button not even rendered, and a fresh state
gets fully ingested. -/
theorem pdf_dedup_spec_witness :
    (cDupState.uploaded_pdf_hash = some (cSha256 "pdfbytes")
        ∧ cDupState.vector_db ≠ none) ∧
    pdfUploadHandler cSha256 cLoader cSplitter cSummarizer cDupState "pdfbytes" false
        = (cDupState, [Effect.info "Same file detected. Reusing existing index."]) ∧
    pdfUploadHandler cSha256 cLoader cSplitter cSummarizer initState "pdfbytes" true
        = ({ initState with
              vector_db := (pdf_ingestion cLoader cSplitter (some "pdfbytes")).1
            , chunks := some (pdf_ingestion cLoader cSplitter (some "pdfbytes")).2
            , uploaded_pdf_hash := some (cSha256 "pdfbytes")
            , summary :=
                some (cSummarizer (pdf_ingestion cLoader cSplitter (some "pdfbytes")).2) },
           [Effect.ingest, Effect.summarize,
            Effect.success "PDF processed, indexed, and summarized!"]) :=
  ⟨⟨rfl, by decide⟩,
   (pdf_dedup_spec cSha256 cLoader cSplitter cSummarizer cDupState "pdfbytes" false).1
     ⟨rfl, by decide⟩,
   (pdf_dedup_spec cSha256 cLoader cSplitter cSummarizer initState "pdfbytes" true).2
     (by decide)⟩

/-- C2 counterexample: an exception raised while parsing the main uploaded
PDF (inside pdf_ingestion, which the Process-PDF handler body does not wrap
in try/except) propagates out of the handler as an exception instead of
being caught and surfaced as a UI error message. -/
theorem parse_error_counterexample :
    processPdfClick cSummarizer (Except.error "PDF parse failure") "h" initState
      = Except.error "PDF parse failure" := rfl

/-- C2 amended: only the expected-responses PDF upload handler wraps parsing
in try/except, turning any parsing exception into a UI error message with
the state unchanged (and on success storing the concatenated page texts);
failures of the main-PDF ingestion, including its PDF parsing, propagate
uncaught out of the Process-PDF handler. -/
theorem error_handling_spec (e : String) (pages : List String)
    (summarizer : List Doc → String) (pdf_hash : String) (st : SessionState) :
    expectedPdfHandler (Except.error e) st
        = (st, [Effect.error ("Error processing expected PDF: " ++ e)]) ∧
    expectedPdfHandler (Except.ok pages) st
        = ({ st with expected_text := String.join (pages.map fun p => p ++ "\n") },
           [Effect.success "Expected responses loaded."]) ∧
    processPdfClick summarizer (Except.error e) pdf_hash st = Except.error e :=
  ⟨rfl, rfl, rfl⟩

/-- C4: pdf_ingestion loads the document, splits it, embeds and stores the
chunks, and returns the pair (vector index, chunks); and with an index
present, Ask Question retrieves documents, joins their page contents with
newlines in retrieval order into the context, sends context and question to
the model, and appends the model reply (with the accuracy footer only when
expected text is present, and verbatim otherwise) as the displayed bot
message. -/
theorem qa_pipeline_spec
    (loader : String → List Doc) (splitter : Nat → Nat → List Doc → List Doc)
    (pdf : String) (retrieve : VectorDB → String → List Doc)
    (llm : String → String → String) (st : SessionState) (q : String)
    (vdb : VectorDB) (hq : q ≠ "") (hdb : st.vector_db = some vdb) :
    pdf_ingestion loader splitter (some pdf)
        = (generate_embeddings
             (split_text splitter (loader pdf) CHUNK_SIZE_DEFAULT CHUNK_OVERLAP_DEFAULT)
             BATCH_SIZE,
           split_text splitter (loader pdf) CHUNK_SIZE_DEFAULT CHUNK_OVERLAP_DEFAULT) ∧
    askQuestionClick retrieve llm st q
        = ({ st with
              messages := st.messages
                ++ [{ role := "User", content := q, sources := none },
                    { role := "Bot"
                    , content := botAnswer
                        (llm (String.intercalate "\n"
                          ((retrieve vdb q).map Doc.page_content)) q)
                        st.expected_text
                    , sources := some ((retrieve vdb q).map sourceLine) }] },
           [Effect.retrieve q,
            Effect.llmCall
              (String.intercalate "\n" ((retrieve vdb q).map Doc.page_content)) q,
            Effect.rerun]) ∧
    (st.expected_text = "" →
      botAnswer
          (llm (String.intercalate "\n" ((retrieve vdb q).map Doc.page_content)) q)
          st.expected_text
        = llm (String.intercalate "\n" ((retrieve vdb q).map Doc.page_content)) q) := by
  refine ⟨rfl, ?_, ?_⟩
  · unfold askQuestionClick
    rw [if_neg hq, hdb]
  · intro h
    unfold botAnswer
    rw [if_pos h]

/-- Witness for C4 at concrete library behaviours: one document with page
content x and source s, a model that replies reply, and no expected text. -/
theorem qa_pipeline_spec_witness :
    ("q" : String) ≠ "" ∧ cAskState.vector_db = some [cDoc] ∧
    askQuestionClick cRetrieve cLlm cAskState "q"
      = ({ cAskState with
            messages :=
              [{ role := "User", content := "q", sources := none },
               { role := "Bot", content := "reply", sources := some ["s: x..."] }] },
         [Effect.retrieve "q", Effect.llmCall "x" "q", Effect.rerun]) := by
  refine ⟨by decide, rfl, ?_⟩
  have h := (qa_pipeline_spec cLoader cSplitter "p" cRetrieve cLlm cAskState "q"
    [cDoc] (by decide) rfl).2.1
  rw [h]
  decide

/-- C6: in every reachable session state each stored message has role User
or Bot, a sources list is attached only to Bot messages, and every
successfully answered question appends exactly two messages: one User
message immediately followed by one Bot message. -/
theorem chat_history_invariant :
    (∀ st, Reachable st → ∀ m ∈ st.messages, MessageOK m) ∧
    (∀ (retrieve : VectorDB → String → List Doc) (llm : String → String → String)
        (st : SessionState) (q : String) (vdb : VectorDB),
      q ≠ "" → st.vector_db = some vdb →
      ∃ answer sources,
        (askQuestionClick retrieve llm st q).1.messages
          = st.messages
            ++ [{ role := "User", content := q, sources := none },
                { role := "Bot", content := answer, sources := some sources }]) := by
  constructor
  · intro st h
    induction h with
    | init => intro m hm; cases hm
    | clear hr ih =>
        intro m hm
        simp [clearChatHistory] at hm
    | ask retrieve llm q hr ih =>
        intro m hm
        rcases askQuestionClick_messages retrieve llm _ q with he | ⟨ans, srcs, he⟩
        · rw [he] at hm; exact ih m hm
        · rw [he] at hm
          rcases List.mem_append.mp hm with h1 | h2
          · exact ih m h1
          · rcases List.mem_cons.mp h2 with h3 | h4
            · subst h3
              exact ⟨Or.inl rfl, fun hc => absurd rfl hc⟩
            · rcases List.mem_cons.mp h4 with h5 | h6
              · subst h5
                exact ⟨Or.inr rfl, fun _ => rfl⟩
              · cases h6
    | upload sha256 loader splitter summarizer fb clicked hr ih =>
        intro m hm
        rw [pdfUploadHandler_messages] at hm
        exact ih m hm
    | expected parse_result hr ih =>
        intro m hm
        rw [expectedPdfHandler_messages] at hm
        exact ih m hm
  · intro retrieve llm st q vdb hq hdb
    unfold askQuestionClick
    rw [if_neg hq, hdb]
    exact ⟨_, _, rfl⟩

/-- Witness for C6: the initial state is reachable and satisfies the
invariant, and a concrete successful question appends exactly a User and a
Bot message. -/
theorem chat_history_invariant_witness :
    (∀ m ∈ initState.messages, MessageOK m) ∧
    (∃ answer sources,
      (askQuestionClick cRetrieve cLlm cAskState "q").1.messages
        = cAskState.messages
          ++ [{ role := "User", content := "q", sources := none },
              { role := "Bot", content := answer, sources := some sources }]) :=
  ⟨chat_history_invariant.1 initState Reachable.init,
   chat_history_invariant.2 cRetrieve cLlm cAskState "q" [cDoc] (by decide) rfl⟩

/-- C10: with no chunks there is no index: generate_embeddings returns none
on the empty chunk list, pdf_ingestion then returns (none, []), the state
stored by the upload handler has no vector index, and asking any non-empty
question in that state behaves exactly as if no PDF had been processed: the
no-index error is shown and the state is unchanged. -/
theorem empty_split_no_index (sha256 : String → String)
    (loader : String → List Doc) (splitter : Nat → Nat → List Doc → List Doc)
    (summarizer : List Doc → String) (st : SessionState) (fb : String)
    (hsplit : splitter CHUNK_SIZE_DEFAULT CHUNK_OVERLAP_DEFAULT (loader fb) = [])
    (hfresh : ¬ (st.uploaded_pdf_hash = some (sha256 fb) ∧ st.vector_db ≠ none)) :
    generate_embeddings [] BATCH_SIZE = none ∧
    pdf_ingestion loader splitter (some fb) = (none, []) ∧
    (pdfUploadHandler sha256 loader splitter summarizer st fb true).1.vector_db
        = none ∧
    (∀ (retrieve : VectorDB → String → List Doc)
        (llm : String → String → String) (q : String), q ≠ "" →
      askQuestionClick retrieve llm
          (pdfUploadHandler sha256 loader splitter summarizer st fb true).1 q
        = ((pdfUploadHandler sha256 loader splitter summarizer st fb true).1,
           [Effect.error "Please upload and process a PDF first."])) := by
  have hing : pdf_ingestion loader splitter (some fb) = (none, []) := by
    simp only [pdf_ingestion, split_text]
    rw [hsplit]
    rfl
  have hdb : (pdfUploadHandler sha256 loader splitter summarizer st fb true).1.vector_db
      = none := by
    simp only [pdfUploadHandler]
    rw [if_neg hfresh, hing]
    simp
  exact ⟨rfl, hing, hdb,
    fun retrieve llm q hq => askQuestionClick_no_index retrieve llm _ q hq hdb⟩

/-- Witness for C10: a splitter that yields no chunks, applied in the fresh
initial state. -/
theorem empty_split_no_index_witness :
    cSplitterNil CHUNK_SIZE_DEFAULT CHUNK_OVERLAP_DEFAULT (cLoader "p") = [] ∧
    ¬ (initState.uploaded_pdf_hash = some (cSha256 "p")
        ∧ initState.vector_db ≠ none) ∧
    pdf_ingestion cLoader cSplitterNil (some "p") = (none, []) ∧
    (pdfUploadHandler cSha256 cLoader cSplitterNil cSummarizer initState "p" true).1.vector_db
        = none :=
  ⟨rfl, by decide,
   (empty_split_no_index cSha256 cLoader cSplitterNil cSummarizer initState "p"
      rfl (by decide)).2.1,
   (empty_split_no_index cSha256 cLoader cSplitterNil cSummarizer initState "p"
      rfl (by decide)).2.2.1⟩

end PdfScreening
